import Mathlib

/-!
# Verification of the dspy-explorer playback/classifier core

Shallow embedding of the two core algorithms of the repository:

* the playback controller of `srcts/hooks/usePlayback.ts` — a small state
  machine `{idle, playing, paused, done}` with commands
  `play/pause/step/stepBack/reset/jumpTo/setSpeed` and a cancellable
  auto-advance timer;
* the phase classifiers `detectPhase`/`annotatePhases` — three variants of
  `lib/phases.ts` are present in the sources (referred to below as the
  `part_005`, `part_006` and `part_007` variants, after the source files
  they were taken from); each maps one iteration record (plus the list of
  all iterations) to a phase label via an ordered cascade of regex rules.

Pure functions are translated to Lean functions; the React state
(`useState`/`useRef`/`useEffect`) of the controller is translated into an
explicit state record plus a deterministic step function per command, with
the pending `setTimeout` handle modelled as a count of pending timers.
JavaScript regexes are embedded via a small executable regex matcher.
-/

/-! ## Playback controller (srcts/hooks/usePlayback.ts) -/

/-- The `PlaybackState` union type of `usePlayback.ts`. -/
inductive PState where
  | idle
  | playing
  | paused
  | done
deriving DecidableEq, Repr

/-- Snapshot of the controller's mutable data: the `state`, `currentIndex`
and `speed` React states of `usePlayback`, plus `timers`, the number of
pending `setTimeout` auto-advance callbacks held by `timerRef` (the source
keeps at most one handle; we model the count and prove it stays `≤ 1`). -/
structure Ctrl where
  state : PState
  currentIndex : Int
  speed : Nat
  timers : Nat
deriving DecidableEq, Repr

/-- Initial state: `useState("idle")`, `useState(-1)`, `useState(1)`,
`timerRef.current = null`. -/
def Ctrl.init : Ctrl := ⟨PState.idle, -1, 1, 0⟩

/-- `clearTimer` (usePlayback.ts lines 28-33): cancels the pending
timeout, if any. -/
def clearTimer (s : Ctrl) : Ctrl := { s with timers := 0 }

/-- `scheduleNext` (lines 51-66) as far as the timer handle is concerned:
it first runs `clearTimer()` and then arms one new timeout.  (The body of
the armed callback is modelled separately by `fire`.) -/
def scheduleNext (s : Ctrl) : Ctrl :=
  let s1 := clearTimer s
  { s1 with timers := s1.timers + 1 }

/-- The `useEffect` of lines 82-89: after every state/index update, if the
state is `playing` the next tick is (re)scheduled, otherwise any pending
timer is cleared. -/
def effect (s : Ctrl) : Ctrl :=
  if s.state = PState.playing then scheduleNext s else clearTimer s

/-- `play` (lines 68-80).  Guard: no-op when `totalIterations === 0`.
Restart from 0 when done or at/after the last index, start from 0 when the
index is negative, otherwise just switch to `playing`. -/
def play (total : Nat) (s : Ctrl) : Ctrl :=
  if total = 0 then s
  else
    effect <|
      if s.state = PState.done ∨ (total : Int) - 1 ≤ s.currentIndex then
        { s with currentIndex := 0, state := PState.playing }
      else if s.currentIndex < 0 then
        { s with currentIndex := 0, state := PState.playing }
      else
        { s with state := PState.playing }

/-- `pause` (lines 91-94): `clearTimer(); setState("paused")`. -/
def pause (s : Ctrl) : Ctrl :=
  effect { clearTimer s with state := PState.paused }

/-- `step` (lines 96-105): `clearTimer()`, then either finish (`done`,
index unchanged) when `currentIndex + 1 >= total`, or advance one index
and pause. -/
def step (total : Nat) (s : Ctrl) : Ctrl :=
  let s1 := clearTimer s
  effect <|
    if (total : Int) ≤ s1.currentIndex + 1 then
      { s1 with state := PState.done }
    else
      { s1 with currentIndex := s1.currentIndex + 1, state := PState.paused }

/-- `stepBack` (lines 107-112): `clearTimer()`,
`currentIndex := Math.max(0, currentIndex - 1)`, pause. -/
def stepBack (s : Ctrl) : Ctrl :=
  let s1 := clearTimer s
  effect { s1 with currentIndex := max 0 (s1.currentIndex - 1), state := PState.paused }

/-- `reset` (lines 114-118): `clearTimer()`, index `-1`, `idle`. -/
def reset (s : Ctrl) : Ctrl :=
  let s1 := clearTimer s
  effect { s1 with currentIndex := -1, state := PState.idle }

/-- `jumpTo` (lines 120-127): `clearTimer()`,
`currentIndex := Math.max(0, Math.min(index, total - 1))`, pause. -/
def jumpTo (total : Nat) (i : Int) (s : Ctrl) : Ctrl :=
  let s1 := clearTimer s
  effect { s1 with currentIndex := max 0 (min i ((total : Int) - 1)), state := PState.paused }

/-- `setSpeed` (the raw `useState` setter exposed at line 139; the effect
re-runs because `scheduleNext` is recreated when `speed` changes). -/
def setSpeed (v : Nat) (s : Ctrl) : Ctrl :=
  effect { s with speed := v }

/-- The `setTimeout` callback armed by `scheduleNext` (lines 53-65),
firing one pending timer: it consumes the timer, re-checks that the state
is still `playing` (stale fires are discarded), then advances one index
and reschedules, or finishes at `done`/`total - 1`.  When no timer is
pending nothing can fire and the state is unchanged. -/
def fire (total : Nat) (s : Ctrl) : Ctrl :=
  if s.timers = 0 then s
  else
    let s0 := { s with timers := s.timers - 1 }
    if s0.state = PState.playing then
      if (total : Int) ≤ s0.currentIndex + 1 then
        effect { s0 with state := PState.done, currentIndex := (total : Int) - 1 }
      else
        effect (scheduleNext { s0 with currentIndex := s0.currentIndex + 1 })
    else s0

/-- One external event on the controller: a command of the hook's API, or
a timer tick. -/
inductive Cmd where
  | play
  | pause
  | step
  | stepBack
  | reset
  | jumpTo (i : Int)
  | setSpeed (v : Nat)
  | tick
deriving DecidableEq, Repr

/-- Interpretation of one event. -/
def exec (total : Nat) (s : Ctrl) (c : Cmd) : Ctrl :=
  match c with
  | Cmd.play => play total s
  | Cmd.pause => pause s
  | Cmd.step => step total s
  | Cmd.stepBack => stepBack s
  | Cmd.reset => reset s
  | Cmd.jumpTo i => jumpTo total i s
  | Cmd.setSpeed v => setSpeed v s
  | Cmd.tick => fire total s

/-- The state reached from the initial state by a sequence of events. -/
def run (total : Nat) (cmds : List Cmd) : Ctrl :=
  cmds.foldl (exec total) Ctrl.init

/-! ## An executable matcher for the JavaScript regexes of lib/phases.ts

The classifier variants test a fixed set of JS regexes against iteration
text.  We embed them with a small regex datatype and a backtracking
matcher.  Character classes follow the ECMAScript definitions: `\s` is the
WhiteSpace/LineTerminator set, `\w` is `[A-Za-z0-9_]`, `\d` is `[0-9]`,
`.` is any character except a line terminator, and `\b` is a word/non-word
boundary.  Character comparisons are by code point. -/

/-- ECMAScript `\s` (WhiteSpace ∪ LineTerminator, by code point). -/
def isJsSpace (c : Char) : Bool :=
  c.toNat = 32 || c.toNat = 9 || c.toNat = 10 || c.toNat = 11 || c.toNat = 12 ||
  c.toNat = 13 || c.toNat = 160 || c.toNat = 0x1680 ||
  (0x2000 ≤ c.toNat && c.toNat ≤ 0x200a) || c.toNat = 0x2028 || c.toNat = 0x2029 ||
  c.toNat = 0x202f || c.toNat = 0x205f || c.toNat = 0x3000 || c.toNat = 0xfeff

/-- ECMAScript `.` (anything but a line terminator). -/
def isJsDot (c : Char) : Bool :=
  !(c.toNat = 10 || c.toNat = 13 || c.toNat = 0x2028 || c.toNat = 0x2029)

/-- ECMAScript `\w`. -/
def isJsWord (c : Char) : Bool :=
  (97 ≤ c.toNat && c.toNat ≤ 122) || (65 ≤ c.toNat && c.toNat ≤ 90) ||
  (48 ≤ c.toNat && c.toNat ≤ 57) || c.toNat = 95

/-- ECMAScript `\d`. -/
def isJsDigit (c : Char) : Bool := 48 ≤ c.toNat && c.toNat ≤ 57

/-- ASCII fragment of `String.prototype.toLowerCase` (all texts tested by
the classifiers are ASCII; non-ASCII code points are left unchanged). -/
def jsToLowerChar (c : Char) : Char :=
  if 65 ≤ c.toNat ∧ c.toNat ≤ 90 then Char.ofNat (c.toNat + 32) else c

/-- `String.prototype.toLowerCase` on the ASCII fragment. -/
def jsToLower (s : String) : String := String.mk (s.toList.map jsToLowerChar)

/-- Regexes, as used in lib/phases.ts: literals, character classes,
concatenation, alternation, Kleene star and word boundary. -/
inductive RE where
  | eps : RE
  | ch : (Char → Bool) → RE
  | seq : RE → RE → RE
  | alt : RE → RE → RE
  | star : RE → RE
  | wb : RE

/-- `\b`: previous character (if any) and next character (if any) disagree
on wordness. -/
def wordBoundary (prev : Option Char) (s : List Char) : Bool :=
  let pw := match prev with | some c => isJsWord c | none => false
  let nw := match s with | c :: _ => isJsWord c | [] => false
  pw != nw

/-- All ways a regex can match a prefix of `s`; each result is the last
character consumed so far (for `\b`) and the remaining suffix.  `fuel`
bounds the recursion depth (it decreases by exactly one on every
recursive call, so the definition is structural and computes by kernel
reduction); exhausted fuel reports no match.  `reHere` below supplies a
fuel that dominates the depth of any derivation: a derivation visits each
node of the regex at most once per star unfolding, and every star body in
the embedded patterns consumes at least one character per iteration. -/
def reMatch (fuel : Nat) (re : RE) (prev : Option Char) (s : List Char) :
    List (Option Char × List Char) :=
  match fuel with
  | 0 => []
  | Nat.succ f =>
    match re with
    | RE.eps => [(prev, s)]
    | RE.ch p =>
      match s with
      | [] => []
      | c :: rest => if p c then [(some c, rest)] else []
    | RE.seq a b =>
      (reMatch f a prev s).foldr (fun pr acc => reMatch f b pr.1 pr.2 ++ acc) []
    | RE.alt a b => reMatch f a prev s ++ reMatch f b prev s
    | RE.star a =>
      (prev, s) ::
        (reMatch f a prev s).foldr (fun pr acc => reMatch f (RE.star a) pr.1 pr.2 ++ acc) []
    | RE.wb => if wordBoundary prev s then [(prev, s)] else []

/-- Number of nodes of a regex (literals count one node per character). -/
def reSize : RE → Nat
  | RE.eps => 1
  | RE.ch _ => 1
  | RE.seq a b => reSize a + reSize b + 1
  | RE.alt a b => reSize a + reSize b + 1
  | RE.star a => reSize a + 1
  | RE.wb => 1

/-- Does `re` match starting exactly at the position whose left context is
`prev` and right context is `s`?  The fuel `(reSize re + 1) * (|s| + 2)`
strictly dominates the depth of every match derivation. -/
def reHere (re : RE) (prev : Option Char) (s : List Char) : Bool :=
  !(reMatch ((reSize re + 1) * (s.length + 2)) re prev s).isEmpty

/-- Unanchored search from every position (RegExp.prototype.test). -/
def reTestFrom (re : RE) (prev : Option Char) : List Char → Bool
  | [] => reHere re prev []
  | c :: rest => reHere re prev (c :: rest) || reTestFrom re (some c) rest

/-- `regex.test(s)` for the embedded patterns. -/
def reTest (re : RE) (s : String) : Bool := reTestFrom re none s.toList

/-- Literal string regex. -/
def lit (t : String) : RE :=
  t.toList.foldr (fun c r => RE.seq (RE.ch (fun d => d == c)) r) RE.eps

/-- `a|b|c|...` (never matches when the list is empty). -/
def alts (l : List RE) : RE := l.foldr RE.alt (RE.ch (fun _ => false))

/-- Concatenation of a list of regexes. -/
def catr (l : List RE) : RE := l.foldr RE.seq RE.eps

/-- `r?`. -/
def opt (r : RE) : RE := RE.alt r RE.eps

/-- `r+`. -/
def rplus (r : RE) : RE := RE.seq r (RE.star r)

/-- `\s*`. -/
def wsStar : RE := RE.star (RE.ch isJsSpace)

/-- `\s+`. -/
def wsPlus : RE := rplus (RE.ch isJsSpace)

/-- `.*`. -/
def dotStar : RE := RE.star (RE.ch isJsDot)

/-! ## Data model (lib/types.ts, src/unnamed/part_004) -/

/-- The `Phase` union type. -/
inductive Phase where
  | orient
  | locate
  | trace_code
  | cross_reference
  | identify_gap
deriving DecidableEq, Repr

/-- The `Iteration` record; `phase?: Phase` is the optional label. -/
structure Iteration where
  iteration : Nat
  reasoning : String
  code : String
  output : String
  success : Bool
  is_final : Bool
  phase : Option Phase
deriving DecidableEq, Repr

/-! ## Embedded regex patterns

One constant per JS regex literal of the three `detectPhase` variants. -/

/-- `/SUBMIT\s*\(/` (part_005, tested on the raw code). -/
def p5Submit : RE := catr [lit "SUBMIT", wsStar, lit "("]

/-- `/submit\s*\(/` (part_006 and part_007, tested on lowercased code). -/
def submitLower : RE := catr [lit "submit", wsStar, lit "("]

/-- `/print\(.*\[:/` (part_005 on raw code; part_006 on lowercased code). -/
def p5PrintSlice : RE := catr [lit "print(", dotStar, lit "[:"]

/-- `/context\s*\[\s*:\s*\d/` (part_005). -/
def p5Context : RE :=
  catr [lit "context", wsStar, lit "[", wsStar, lit ":", wsStar, RE.ch isJsDigit]

/-- `/type\(|len\(|dir\(|\.keys\(/` (part_005 and part_006). -/
def p5TypeLen : RE := alts [lit "type(", lit "len(", lit "dir(", lit ".keys("]

/-- `/structure|overview|explore|understand|preview|beginning|available|identify the/`
(part_005, on lowercased reasoning). -/
def p5OrientWords : RE :=
  alts [lit "structure", lit "overview", lit "explore", lit "understand",
    lit "preview", lit "beginning", lit "available", lit "identify the"]

/-- part_005 `traceReasoning` regex:
`/definition|implementation|method|dispatch|lifecycle|invoke|call\s*(path|chain)|inheritance|within the \w+ class|full\s*(content|definition)|analyz(e|ing)\s*(the|specific|request|how)/`. -/
def p5TraceWords : RE :=
  alts [lit "definition", lit "implementation", lit "method", lit "dispatch",
    lit "lifecycle", lit "invoke",
    catr [lit "call", wsStar, alts [lit "path", lit "chain"]],
    lit "inheritance",
    catr [lit "within the ", rplus (RE.ch isJsWord), lit " class"],
    catr [lit "full", wsStar, alts [lit "content", lit "definition"]],
    catr [lit "analyz", alts [lit "e", lit "ing"], wsStar,
      alts [lit "the", lit "specific", lit "request", lit "how"]]]

/-- part_005 `locateReasoning` regex:
`/search(ing)?(\s+for)?|find(ing)?(\s+the)?|locat(e|ing)|extract(ing)?|filter(ing)?|look(ing)?\s*(for|at)|occurrenc|mention|scan(ning)?/`. -/
def p5LocateWords : RE :=
  alts [
    catr [lit "search", opt (lit "ing"), opt (catr [wsPlus, lit "for"])],
    catr [lit "find", opt (lit "ing"), opt (catr [wsPlus, lit "the"])],
    catr [lit "locat", alts [lit "e", lit "ing"]],
    catr [lit "extract", opt (lit "ing")],
    catr [lit "filter", opt (lit "ing")],
    catr [lit "look", opt (lit "ing"), wsStar, alts [lit "for", lit "at"]],
    lit "occurrenc", lit "mention",
    catr [lit "scan", opt (lit "ning")]]

/-- part_005 `synthesizeReasoning` regex:
`/compile|synthesiz|format.*final|ready.*submit|structur(e|ing)\s*(the\s+)?find|prepare.*submission|present.*final/`. -/
def p5SynthWords : RE :=
  alts [lit "compile", lit "synthesiz",
    catr [lit "format", dotStar, lit "final"],
    catr [lit "ready", dotStar, lit "submit"],
    catr [lit "structur", alts [lit "e", lit "ing"], wsStar,
      opt (catr [lit "the", wsPlus]), lit "find"],
    catr [lit "prepare", dotStar, lit "submission"],
    catr [lit "present", dotStar, lit "final"]]

/-- `/re\.(findall|search|match)\s*\(/` (part_005 `hasRegexSearch`). -/
def p5RegexSearch : RE :=
  catr [lit "re.", alts [lit "findall", lit "search", lit "match"], wsStar, lit "("]

/-- `/\[.*\bfor\b.*\bin\b.*\bif\b/` (part_005 `hasListCompFilter`). -/
def p5ListCompFilter : RE :=
  catr [lit "[", dotStar, RE.wb, lit "for", RE.wb, dotStar, RE.wb, lit "in", RE.wb,
    dotStar, RE.wb, lit "if", RE.wb]

/-- `/\.find\(|\.index\(|\.count\(/` (part_005 `hasFindIndex`). -/
def p5FindIndex : RE := alts [lit ".find(", lit ".index(", lit ".count("]

/-- `/print\(/` (part_005, line 71). -/
def p5PrintCall : RE := lit "print("

/-- `/\[.*:.*\]/` (part_005 line 71 on raw code; also inside part_006's
locate alternation). -/
def p5SliceBrackets : RE := catr [lit "[", dotStar, lit ":", dotStar, lit "]"]

/-- `/list_files|grep|overview|structure/` (part_007 orient rule). -/
def p7OrientWords : RE :=
  alts [lit "list_files", lit "grep", lit "overview", lit "structure"]

/-- `/import|class\s|def\s|super\(\)|__init__|inherit|base/` (part_007). -/
def p7TraceSignals : RE :=
  alts [lit "import", catr [lit "class", RE.ch isJsSpace],
    catr [lit "def", RE.ch isJsSpace], lit "super()", lit "__init__",
    lit "inherit", lit "base"]

/-- `/inspect_source|exec_source.*grep|search|find/` (part_007). -/
def p7LocateSignals : RE :=
  alts [lit "inspect_source", catr [lit "exec_source", dotStar, lit "grep"],
    lit "search", lit "find"]

/-- `/structure|overview|explore|understand/` (part_006 orient reasoning). -/
def p6OrientReason : RE :=
  alts [lit "structure", lit "overview", lit "explore", lit "understand"]

/-- `/import|class\s|def\s|super\(\)|__init__|\.find\(.*class/` (part_006). -/
def p6TraceCode : RE :=
  alts [lit "import", catr [lit "class", RE.ch isJsSpace],
    catr [lit "def", RE.ch isJsSpace], lit "super()", lit "__init__",
    catr [lit ".find(", dotStar, lit "class"]]

/-- `/trace|follow|logic|chain|hierarchy/` (part_006 trace reasoning). -/
def p6TraceReason : RE :=
  alts [lit "trace", lit "follow", lit "logic", lit "chain", lit "hierarchy"]

/-- `/\.find\(|\.index\(|\.count\(|\[.*:.*\]/` (part_006 locate code). -/
def p6LocateCode : RE :=
  alts [lit ".find(", lit ".index(", lit ".count(", p5SliceBrackets]

/-- `/search|find|locate|identify|look for/` (part_006 locate reasoning). -/
def p6LocateReason : RE :=
  alts [lit "search", lit "find", lit "locate", lit "identify", lit "look for"]

/-! ## findSourceVars (part_007 lines 3-11)

`code.matchAll(/(?:exec_source|inspect_source)\s*\(\s*['"](\w+)['"]/g)`,
collecting the captured `\w+` group of each match into a `Set`.  The
matcher below scans left to right; at each position it attempts the
pattern (the greedy `\s*`/`\w+` runs are exact here because the character
that must follow each run can never belong to the run), records the
capture and resumes after the match, otherwise moves one character on. -/

/-- `['"]`: a single or double quote. -/
def isQuoteCh (c : Char) : Bool := c.toNat = 39 || c.toNat = 34

/-- After the literal `exec_source`/`inspect_source`, match
`\s*\(\s*['"](\w+)['"]` and return the capture with the rest of the
input. -/
def srcCallTail (rest : List Char) : Option (String × List Char) :=
  match rest.dropWhile isJsSpace with
  | '(' :: afterParen =>
    match afterParen.dropWhile isJsSpace with
    | q :: afterQuote =>
      if isQuoteCh q then
        let name := afterQuote.takeWhile isJsWord
        match afterQuote.dropWhile isJsWord with
        | q2 :: afterName =>
          if !name.isEmpty && isQuoteCh q2 then some (String.mk name, afterName)
          else none
        | [] => none
      else none
    | [] => none
  | _ => none

/-- Attempt the whole pattern at the current position. -/
def matchSrcAt (l : List Char) : Option (String × List Char) :=
  if "exec_source".toList.isPrefixOf l then srcCallTail (l.drop 11)
  else if "inspect_source".toList.isPrefixOf l then srcCallTail (l.drop 14)
  else none

/-- Left-to-right scan collecting all captures (`fuel` only bounds the
recursion; every step consumes at least one character). -/
def findVarsAux : Nat → List Char → List String
  | 0, _ => []
  | _, [] => []
  | Nat.succ fuel, c :: rest =>
    match matchSrcAt (c :: rest) with
    | some (name, remaining) => name :: findVarsAux fuel remaining
    | none => findVarsAux fuel rest

/-- `findSourceVars` of part_007: the set of captured source names (as a
deduplicated list; only membership and emptiness are consumed). -/
def findSourceVars (code : String) : List String :=
  (findVarsAux code.length code.toList).dedup

/-! ## The three detectPhase variants and annotatePhases -/

/-- `detectPhase` of src/unnamed/part_005 (lines 3-78). -/
def detectPhase5 (iter : Iteration) (allIterations : List Iteration) : Phase :=
  let code := iter.code
  let codeLower := jsToLower code
  let reasoning := jsToLower iter.reasoning
  let idx := iter.iteration
  let totalIters := allIterations.length
  if iter.is_final ∨ reTest p5Submit code then Phase.identify_gap
  else if idx ≤ 2 ∧ (reTest p5PrintSlice code ∨ reTest p5Context codeLower ∨
      reTest p5TypeLen codeLower ∨ reTest p5OrientWords reasoning) then Phase.orient
  else
    let traceReasoning := reTest p5TraceWords reasoning
    let locateReasoning := reTest p5LocateWords reasoning
    let synthesizeReasoning := reTest p5SynthWords reasoning
    if synthesizeReasoning ∧ (totalIters : Int) - 2 ≤ (idx : Int) then Phase.identify_gap
    -- `idx > Math.floor(totalIters * 0.4)`: the double product rounds to
    -- `2 * totalIters / 5` exactly for every list length in range, so the
    -- floor is Nat division by 5.
    else if traceReasoning ∧ locateReasoning then
      if 2 * totalIters / 5 < idx then Phase.trace_code else Phase.locate
    else if traceReasoning then Phase.trace_code
    else
      let hasRegexSearch := reTest p5RegexSearch codeLower
      let hasListCompFilter := reTest p5ListCompFilter codeLower
      let hasFindIndex := reTest p5FindIndex codeLower
      if hasRegexSearch ∨ hasListCompFilter ∨ hasFindIndex ∨ locateReasoning then
        Phase.locate
      else if reTest p5PrintCall codeLower ∧ reTest p5SliceBrackets code ∧ idx ≤ 3 then
        Phase.orient
      else if idx ≤ 2 then Phase.orient
      else Phase.locate

/-- `detectPhase` of src/unnamed/part_006. -/
def detectPhase6 (iter : Iteration) (allIterations : List Iteration) : Phase :=
  let code := jsToLower iter.code
  let reasoning := jsToLower iter.reasoning
  let idx := iter.iteration
  let _ := allIterations
  if iter.is_final ∨ reTest submitLower code then Phase.identify_gap
  else if idx ≤ 2 ∧ (reTest p5PrintSlice code ∨ reTest p5TypeLen code ∨
      reTest p6OrientReason reasoning) then Phase.orient
  else if reTest (lit "llm_query") code then Phase.cross_reference
  else if reTest p6TraceCode code ∨ reTest p6TraceReason reasoning then Phase.trace_code
  else if reTest p6LocateCode code ∨ reTest p6LocateReason reasoning then Phase.locate
  else if idx ≤ 3 then Phase.orient
  else Phase.locate

/-- `detectPhase` of src/unnamed/part_007 (lines 13-59).  Note the order:
the early-orient rule precedes the terminal/submit rule.  The
`allIterations.slice(0, idx - 1)` union of previously referenced source
names is the only use of the full sequence. -/
def detectPhase7 (iter : Iteration) (allIterations : List Iteration) : Phase :=
  let code := jsToLower iter.code
  let idx := iter.iteration
  if idx ≤ 2 ∧ reTest p7OrientWords code then Phase.orient
  else if iter.is_final ∨ reTest submitLower code then Phase.identify_gap
  else
    let currentVars := findSourceVars iter.code
    let previousVars :=
      (allIterations.take (idx - 1)).foldr (fun p acc => findSourceVars p.code ++ acc) []
    let newVars := currentVars.filter (fun v => !previousVars.contains v)
    if (currentVars ≠ [] ∧ 3 < idx) ∧ newVars ≠ [] then Phase.cross_reference
    else if reTest p7TraceSignals code then Phase.trace_code
    else if reTest p7LocateSignals code then Phase.locate
    else if idx ≤ 3 then Phase.orient
    else Phase.locate

/-- `annotatePhases` (identical in all three variants; the copy cited by
the claims is part_005 lines 80-85, so its `detectPhase` is used):
`iterations.map(iter => ({...iter, phase: iter.phase ?? detectPhase(iter, iterations)}))`. -/
def annotatePhases (iterations : List Iteration) : List Iteration :=
  iterations.map fun iter =>
    { iter with phase := some (iter.phase.getD (detectPhase5 iter iterations)) }

/-! ## Theorems

One theorem (plus, where needed, a witness and a counterexample) per claim
of the specification audit. -/

/-- Invariant-propagation helper over event sequences. -/
theorem foldl_exec_inv (total : Nat) (P : Ctrl → Prop)
    (hstep : ∀ s c, P s → P (exec total s c)) :
    ∀ (cmds : List Cmd) (s : Ctrl), P s → P (cmds.foldl (exec total) s) := by
  intro cmds
  induction cmds with
  | nil => intro s h; exact h
  | cons c cs ih => intro s h; exact ih (exec total s c) (hstep s c h)

/-- Claim C1, counterexample: over an empty sequence the commands are not
all no-ops.  From the initial state, `stepBack()` moves to
`(paused, currentIndex = 0)`, `step()` moves to `done`, and `jumpTo(5)`
moves to `(paused, 0)` — the state does not remain `idle` and
`currentIndex` does not remain `-1`. -/
theorem C1_counterexample :
    (run 0 [Cmd.stepBack]).state = PState.paused ∧
    (run 0 [Cmd.stepBack]).currentIndex = 0 ∧
    (run 0 [Cmd.step]).state = PState.done ∧
    (run 0 [Cmd.jumpTo 5]).state = PState.paused ∧
    (run 0 [Cmd.jumpTo 5]).currentIndex = 0 := by
  decide

/-- Claim C1, amended: over an empty sequence (`total = 0`) no command
raises an error (all transitions are total functions), `play()` is a
genuine no-op on every state, and no event sequence can ever reach the
`playing` state or move `currentIndex` outside `{-1, 0}`; however `pause`,
`step`, `stepBack` and `jumpTo` are not no-ops (see the
counterexample). -/
theorem C1_empty_total_amended :
    (∀ cmds : List Cmd, (run 0 cmds).state ≠ PState.playing ∧
      -1 ≤ (run 0 cmds).currentIndex ∧ (run 0 cmds).currentIndex ≤ 0) ∧
    (∀ s : Ctrl, play 0 s = s) := by
  constructor
  · intro cmds
    refine foldl_exec_inv 0
      (fun s => s.state ≠ PState.playing ∧ -1 ≤ s.currentIndex ∧ s.currentIndex ≤ 0)
      ?_ cmds Ctrl.init ?_
    · rintro ⟨st, ci, sp, t⟩ c ⟨h1, h2, h3⟩
      cases c <;>
        simp only [exec, play, pause, step, stepBack, reset, jumpTo, setSpeed, fire, effect,
          scheduleNext, clearTimer] <;>
        split_ifs <;>
        simp_all <;>
        omega
    · simp [Ctrl.init]
  · intro s; simp [play]

/-- Claim C2, counterexample: prefix-stability fails for the part_005
classifier.  The iteration at (0-based) position 2 — reasoning
`"compile"`, empty code — classifies as `identify_gap` against the
two-iteration prefix preceding it (the near-end synthesis rule
`idx >= totalIters - 2` holds when only 2 iterations are visible) but as
`locate` against the full six-iteration sequence. -/
theorem C2_counterexample :
    detectPhase5 ⟨3, "compile", "", "", true, false, none⟩
      [⟨1, "", "", "", true, false, none⟩, ⟨2, "", "", "", true, false, none⟩] =
      Phase.identify_gap ∧
    detectPhase5 ⟨3, "compile", "", "", true, false, none⟩
      [⟨1, "", "", "", true, false, none⟩, ⟨2, "", "", "", true, false, none⟩,
       ⟨3, "compile", "", "", true, false, none⟩, ⟨4, "", "", "", true, false, none⟩,
       ⟨5, "", "", "", true, false, none⟩, ⟨6, "", "", "", true, false, none⟩] =
      Phase.locate ∧
    Phase.identify_gap ≠ Phase.locate := by
  decide

/-- Claim C2, amended: prefix-stability holds for the part_007 classifier
(whose only use of the surrounding sequence is
`allIterations.slice(0, idx - 1)`, the iterations strictly preceding the
classified one): for a well-positioned sequence (`iteration = position + 1`),
classifying element `k` against the preceding prefix equals classifying it
against the full sequence.  The part_005 variant reads the total sequence
length (near-end synthesis rule and trace/locate tie-break), so its labels
are not prefix-stable (see the counterexample). -/
theorem C2_prefix_stability_amended (l : List Iteration) (k : Nat) (hk : k < l.length)
    (hpos : (l.get ⟨k, hk⟩).iteration = k + 1) :
    detectPhase7 (l.get ⟨k, hk⟩) (l.take k) = detectPhase7 (l.get ⟨k, hk⟩) l := by
  simp only [detectPhase7, hpos, Nat.add_sub_cancel, List.take_take, Nat.min_self]

/-- Claim C2, witness for the amended theorem at a concrete one-element
sequence. -/
theorem C2_prefix_stability_amended_witness :
    detectPhase7 (⟨1, "", "", "", true, false, none⟩ : Iteration)
        (([⟨1, "", "", "", true, false, none⟩] : List Iteration).take 0) =
      detectPhase7 (⟨1, "", "", "", true, false, none⟩ : Iteration)
        [⟨1, "", "", "", true, false, none⟩] :=
  C2_prefix_stability_amended [⟨1, "", "", "", true, false, none⟩] 0 (by decide) rfl

/-- Claim C3, counterexample: in the part_007 classifier the terminal rule
does not always win.  A final iteration at position 1 whose code is
`"grep"` matches the early-orient rule, which is checked first, and
classifies as `orient`, not `identify_gap`. -/
theorem C3_counterexample :
    (⟨1, "", "grep", "", true, true, none⟩ : Iteration).is_final = true ∧
    detectPhase7 ⟨1, "", "grep", "", true, true, none⟩
      [⟨1, "", "grep", "", true, true, none⟩] = Phase.orient ∧
    Phase.orient ≠ Phase.identify_gap := by
  decide

/-- Claim C3, amended: in the part_005 classifier the terminal rule
(`is_final` or a `SUBMIT(` marker in the code) is checked first and always
yields `identify_gap`; in the part_007 variant the same rule (`is_final`
or lowercase `submit(`) yields `identify_gap` only when the preceding
early-orient rule (position ≤ 2 with `list_files|grep|overview|structure`
in the code) does not match. -/
theorem C3_terminal_rule_amended :
    (∀ (iter : Iteration) (allIterations : List Iteration),
      iter.is_final = true ∨ reTest p5Submit iter.code = true →
      detectPhase5 iter allIterations = Phase.identify_gap) ∧
    (∀ (iter : Iteration) (allIterations : List Iteration),
      iter.is_final = true ∨ reTest submitLower (jsToLower iter.code) = true →
      ¬(iter.iteration ≤ 2 ∧ reTest p7OrientWords (jsToLower iter.code) = true) →
      detectPhase7 iter allIterations = Phase.identify_gap) := by
  constructor
  · intro iter allIterations h
    simp only [detectPhase5]
    split_ifs
    rfl
  · intro iter allIterations h ho
    simp only [detectPhase7]
    split_ifs
    rfl

/-- Claim C3, witness: a concrete final iteration classified by both
variants through the amended theorem. -/
theorem C3_terminal_rule_amended_witness :
    detectPhase5 ⟨4, "", "", "", true, true, none⟩ [] = Phase.identify_gap ∧
    detectPhase7 ⟨4, "", "SUBMIT(answer)", "", true, true, none⟩ [] = Phase.identify_gap :=
  ⟨C3_terminal_rule_amended.1 ⟨4, "", "", "", true, true, none⟩ [] (Or.inl rfl),
   C3_terminal_rule_amended.2 ⟨4, "", "SUBMIT(answer)", "", true, true, none⟩ []
     (Or.inl rfl) (by decide)⟩

/-- Claim C4, counterexample: two reachable states violate the claimed
invariant.  With `total = 1`, `pause()` from the initial state yields
`paused` with `currentIndex = -1`, refuting the `idle ⇔ currentIndex = -1`
biconditional; with `total = 0`, `jumpTo(5)` yields `currentIndex = 0`,
refuting `currentIndex < total`. -/
theorem C4_counterexample :
    ((run 1 [Cmd.pause]).state ≠ PState.idle ∧
      (run 1 [Cmd.pause]).currentIndex = -1) ∧
    ((run 0 [Cmd.jumpTo 5]).currentIndex = 0 ∧
      ¬((run 0 [Cmd.jumpTo 5]).currentIndex < ((0 : Nat) : Int))) := by
  decide

/-- Claim C4, amended: for `total ≥ 1`, every state reachable by commands
and timer fires satisfies `-1 ≤ currentIndex < total`,
`idle ⇒ currentIndex = -1`, and `done ⇒ currentIndex = total - 1`.  (The
converse `currentIndex = -1 ⇒ idle` fails, and for `total = 0` the bound
`currentIndex < total` fails; see the counterexample.) -/
theorem C4_invariant_amended (total : Nat) (cmds : List Cmd) (h : 1 ≤ total) :
    -1 ≤ (run total cmds).currentIndex ∧ (run total cmds).currentIndex < (total : Int) ∧
    ((run total cmds).state = PState.idle → (run total cmds).currentIndex = -1) ∧
    ((run total cmds).state = PState.done →
      (run total cmds).currentIndex = (total : Int) - 1) := by
  refine foldl_exec_inv total
    (fun s => -1 ≤ s.currentIndex ∧ s.currentIndex < (total : Int) ∧
      (s.state = PState.idle → s.currentIndex = -1) ∧
      (s.state = PState.done → s.currentIndex = (total : Int) - 1))
    ?_ cmds Ctrl.init ?_
  · rintro ⟨st, ci, sp, t⟩ c ⟨h1, h2, h3, h4⟩
    cases c <;>
      simp only [exec, play, pause, step, stepBack, reset, jumpTo, setSpeed, fire, effect,
        scheduleNext, clearTimer] <;>
      split_ifs <;>
      simp_all <;>
      omega
  · simp [Ctrl.init]
    omega

/-- Claim C4, witness for the amended invariant after `play()` with
`total = 1`. -/
theorem C4_invariant_amended_witness :
    -1 ≤ (run 1 [Cmd.play]).currentIndex ∧ (run 1 [Cmd.play]).currentIndex < (1 : Int) ∧
    ((run 1 [Cmd.play]).state = PState.idle → (run 1 [Cmd.play]).currentIndex = -1) ∧
    ((run 1 [Cmd.play]).state = PState.done →
      (run 1 [Cmd.play]).currentIndex = (1 : Int) - 1) :=
  C4_invariant_amended 1 [Cmd.play] (by decide)

/-- Claim C5, counterexample: `play()` from a paused state does not always
resume from the current index.  With `total = 2`, after `jumpTo(1)` the
controller is paused at index 1 (the last index); `play()` then restarts
from index 0. -/
theorem C5_counterexample :
    (run 2 [Cmd.jumpTo 1]).state = PState.paused ∧
    (run 2 [Cmd.jumpTo 1]).currentIndex = 1 ∧
    (run 2 [Cmd.jumpTo 1, Cmd.play]).state = PState.playing ∧
    (run 2 [Cmd.jumpTo 1, Cmd.play]).currentIndex = 0 := by
  decide

/-- Claim C5, amended: for `total ≥ 1`, `play()` from a paused state
always transitions to `playing`; it keeps `currentIndex` unchanged exactly
when `0 ≤ currentIndex < total - 1`, and restarts from index 0 when the
paused index is negative or at/after the last index. -/
theorem C5_play_from_paused_amended (total : Nat) (s : Ctrl)
    (h1 : s.state = PState.paused) (h2 : 1 ≤ total) :
    (play total s).state = PState.playing ∧
    (0 ≤ s.currentIndex → s.currentIndex < (total : Int) - 1 →
      (play total s).currentIndex = s.currentIndex) ∧
    ((s.currentIndex < 0 ∨ (total : Int) - 1 ≤ s.currentIndex) →
      (play total s).currentIndex = 0) := by
  obtain ⟨st, ci, sp, t⟩ := s
  simp only [play, effect, scheduleNext, clearTimer]
  split_ifs <;> simp_all

/-- Claim C5, witness: `play 3` applied to `(paused, 0)`. -/
theorem C5_play_from_paused_amended_witness :
    (play 3 ⟨PState.paused, 0, 1, 0⟩).state = PState.playing ∧
    ((0 : Int) ≤ 0 → (0 : Int) < (3 : Int) - 1 →
      (play 3 ⟨PState.paused, 0, 1, 0⟩).currentIndex = 0) ∧
    (((0 : Int) < 0 ∨ (3 : Int) - 1 ≤ (0 : Int)) →
      (play 3 ⟨PState.paused, 0, 1, 0⟩).currentIndex = 0) :=
  C5_play_from_paused_amended 3 ⟨PState.paused, 0, 1, 0⟩ rfl (by decide)

/-- Claim C6: while `playing` with a pending timer, a tick with
`currentIndex + 1 < total` advances the index by one, stays `playing`, and
leaves the next tick scheduled; a tick with `currentIndex + 1 = total`
moves to `done` with `currentIndex = total - 1` and nothing scheduled. -/
theorem C6_timer_fire (total : Nat) (s : Ctrl)
    (hp : s.state = PState.playing) (ht : 1 ≤ s.timers) :
    (s.currentIndex + 1 < (total : Int) →
      fire total s = { s with currentIndex := s.currentIndex + 1, timers := 1 }) ∧
    (s.currentIndex + 1 = (total : Int) →
      fire total s = ⟨PState.done, (total : Int) - 1, s.speed, 0⟩) := by
  obtain ⟨st, ci, sp, t⟩ := s
  simp only [fire, effect, scheduleNext, clearTimer]
  split_ifs <;> simp_all <;> omega

/-- Claim C6, witness: a mid-sequence tick and a final tick of a playing
controller. -/
theorem C6_timer_fire_witness :
    ((0 : Int) + 1 < ((3 : Nat) : Int) →
      fire 3 ⟨PState.playing, 0, 1, 1⟩ = ⟨PState.playing, 1, 1, 1⟩) ∧
    ((0 : Int) + 1 = ((3 : Nat) : Int) →
      fire 3 ⟨PState.playing, 0, 1, 1⟩ = ⟨PState.done, ((3 : Nat) : Int) - 1, 1, 0⟩) :=
  C6_timer_fire 3 ⟨PState.playing, 0, 1, 1⟩ rfl (by decide)

/-- Claim C7: every explicit command (`pause`, `step`, `stepBack`,
`reset`, `jumpTo`) cancels any pending timer before applying its effect —
its result is independent of the pending-timer count and it leaves no
timer pending; a tick that fires when the state is not `playing` changes
nothing observable (it only consumes the fired timer); and every reachable
state has at most one pending timer. -/
theorem C7_timer_discipline (total : Nat) (s : Ctrl) (i : Int) (cmds : List Cmd) :
    pause s = pause { s with timers := 0 } ∧
    step total s = step total { s with timers := 0 } ∧
    stepBack s = stepBack { s with timers := 0 } ∧
    reset s = reset { s with timers := 0 } ∧
    jumpTo total i s = jumpTo total i { s with timers := 0 } ∧
    (pause s).timers = 0 ∧
    (step total s).timers = 0 ∧
    (stepBack s).timers = 0 ∧
    (reset s).timers = 0 ∧
    (jumpTo total i s).timers = 0 ∧
    (s.state ≠ PState.playing → fire total s = { s with timers := s.timers - 1 }) ∧
    (run total cmds).timers ≤ 1 := by
  obtain ⟨st, ci, sp, t⟩ := s
  refine ⟨rfl, rfl, rfl, rfl, rfl, ?_, ?_, ?_, ?_, ?_, ?_, ?_⟩
  · simp only [pause, effect, scheduleNext, clearTimer]; split_ifs <;> simp_all
  · simp only [step, effect, scheduleNext, clearTimer]; split_ifs <;> simp_all
  · simp only [stepBack, effect, scheduleNext, clearTimer]; split_ifs <;> simp_all
  · simp only [reset, effect, scheduleNext, clearTimer]; split_ifs <;> simp_all
  · simp only [jumpTo, effect, scheduleNext, clearTimer]; split_ifs <;> simp_all
  · intro hne
    simp only [fire, effect, scheduleNext, clearTimer]
    split_ifs <;> simp_all
  · refine foldl_exec_inv total (fun s => s.timers ≤ 1) ?_ cmds Ctrl.init ?_
    · rintro ⟨st2, ci2, sp2, t2⟩ c h
      cases c <;>
        simp only [exec, play, pause, step, stepBack, reset, jumpTo, setSpeed, fire, effect,
          scheduleNext, clearTimer] <;>
        split_ifs <;>
        simp_all
    · simp [Ctrl.init]

/-- Claim C7, witness: a stale tick on a paused controller only consumes
the timer. -/
theorem C7_timer_discipline_witness :
    fire 5 ⟨PState.paused, 2, 1, 1⟩ = ⟨PState.paused, 2, 1, 0⟩ :=
  (C7_timer_discipline 5 ⟨PState.paused, 2, 1, 1⟩ 2 []).2.2.2.2.2.2.2.2.2.2.1 (by decide)

/-- Claim C8, counterexample: the first-touch rule exists only in the
part_007 classifier.  An iteration at position 5 whose code is
`inspect_source('foo', 'a.py', 1, 2)` references the source name `foo`,
which no preceding iteration references, is past the early window, and
matches neither the terminal nor the orient rule — yet the part_005 and
part_006 classifiers both return `locate`, not `cross_reference`. -/
theorem C8_counterexample :
    findSourceVars "inspect_source('foo', 'a.py', 1, 2)" = ["foo"] ∧
    detectPhase5 ⟨5, "", "inspect_source('foo', 'a.py', 1, 2)", "", true, false, none⟩
      [⟨1, "", "", "", true, false, none⟩, ⟨2, "", "", "", true, false, none⟩,
       ⟨3, "", "", "", true, false, none⟩, ⟨4, "", "", "", true, false, none⟩,
       ⟨5, "", "inspect_source('foo', 'a.py', 1, 2)", "", true, false, none⟩,
       ⟨6, "", "", "", true, false, none⟩] = Phase.locate ∧
    detectPhase6 ⟨5, "", "inspect_source('foo', 'a.py', 1, 2)", "", true, false, none⟩
      [⟨1, "", "", "", true, false, none⟩, ⟨2, "", "", "", true, false, none⟩,
       ⟨3, "", "", "", true, false, none⟩, ⟨4, "", "", "", true, false, none⟩,
       ⟨5, "", "inspect_source('foo', 'a.py', 1, 2)", "", true, false, none⟩,
       ⟨6, "", "", "", true, false, none⟩] = Phase.locate ∧
    Phase.locate ≠ Phase.cross_reference := by
  decide

/-- Claim C8, amended: in the part_007 classifier, an iteration that does
not satisfy the terminal rule (`is_final` or a `submit(` marker), whose
position is past the early window (`iteration > 3`, which also excludes
the orient rule), and whose code references a source name that no
preceding iteration references, classifies as `cross_reference`.  (The
part_005 variant has no such rule at all and part_006 keys
`cross_reference` on `llm_query` instead; see the counterexample.) -/
theorem C8_cross_reference_amended (iter : Iteration) (allIterations : List Iteration)
    (hfin : iter.is_final = false)
    (hsub : reTest submitLower (jsToLower iter.code) = false)
    (hidx : 3 < iter.iteration)
    (hnew : (findSourceVars iter.code).filter
      (fun v => !(((allIterations.take (iter.iteration - 1)).foldr
        (fun p acc => findSourceVars p.code ++ acc) []).contains v)) ≠ []) :
    detectPhase7 iter allIterations = Phase.cross_reference := by
  have hcur : findSourceVars iter.code ≠ [] := by
    intro he
    rw [he] at hnew
    simp at hnew
  simp only [detectPhase7]
  split_ifs with h1 h2 h3
  · exact absurd h1.1 (by omega)
  · simp [hfin, hsub] at h2
  · rfl
  all_goals exact absurd ⟨⟨hcur, hidx⟩, hnew⟩ h3

/-- Claim C8, witness: the first-touch iteration of the counterexample is
classified `cross_reference` by the part_007 variant. -/
theorem C8_cross_reference_amended_witness :
    detectPhase7 ⟨5, "", "inspect_source('foo', 'a.py', 1, 2)", "", true, false, none⟩
      [⟨1, "", "", "", true, false, none⟩, ⟨2, "", "", "", true, false, none⟩,
       ⟨3, "", "", "", true, false, none⟩, ⟨4, "", "", "", true, false, none⟩,
       ⟨5, "", "inspect_source('foo', 'a.py', 1, 2)", "", true, false, none⟩,
       ⟨6, "", "", "", true, false, none⟩] = Phase.cross_reference :=
  C8_cross_reference_amended
    ⟨5, "", "inspect_source('foo', 'a.py', 1, 2)", "", true, false, none⟩
    [⟨1, "", "", "", true, false, none⟩, ⟨2, "", "", "", true, false, none⟩,
     ⟨3, "", "", "", true, false, none⟩, ⟨4, "", "", "", true, false, none⟩,
     ⟨5, "", "inspect_source('foo', 'a.py', 1, 2)", "", true, false, none⟩,
     ⟨6, "", "", "", true, false, none⟩]
    rfl (by decide) (by decide) (by decide)

/-- Claim C9: `annotatePhases` fills the phase field with the detected
phase only where it is unset, never overwrites a present label, leaves
every other field of every iteration unchanged, preserves the list
length, and is idempotent. -/
theorem C9_annotatePhases_frame (l : List Iteration) (k : Nat) :
    annotatePhases (annotatePhases l) = annotatePhases l ∧
    (annotatePhases l).length = l.length ∧
    (∀ iter, l[k]? = some iter →
      (annotatePhases l)[k]? =
        some { iter with phase := some (iter.phase.getD (detectPhase5 iter l)) } ∧
      (∀ p, iter.phase = some p →
        (annotatePhases l)[k]? = some { iter with phase := some p }) ∧
      (iter.phase = none →
        (annotatePhases l)[k]? = some { iter with phase := some (detectPhase5 iter l) })) := by
  refine ⟨?_, ?_, ?_⟩
  · simp only [annotatePhases, List.map_map]
    apply List.map_congr_left
    intro a _
    simp [Function.comp, Option.getD]
  · simp [annotatePhases]
  · intro iter hit
    have h1 : (annotatePhases l)[k]? =
        some { iter with phase := some (iter.phase.getD (detectPhase5 iter l)) } := by
      simp [annotatePhases, List.getElem?_map, hit]
    refine ⟨h1, ?_, ?_⟩
    · intro p hp; rw [h1, hp]; simp
    · intro hp; rw [h1, hp]; simp

/-- Claim C9, witness: a pre-labelled iteration is passed through
unchanged. -/
theorem C9_annotatePhases_frame_witness :
    annotatePhases (annotatePhases [⟨1, "r", "c", "o", true, false, some Phase.locate⟩]) =
      annotatePhases [⟨1, "r", "c", "o", true, false, some Phase.locate⟩] ∧
    (annotatePhases [⟨1, "r", "c", "o", true, false, some Phase.locate⟩])[0]? =
      some ⟨1, "r", "c", "o", true, false, some Phase.locate⟩ :=
  ⟨(C9_annotatePhases_frame [⟨1, "r", "c", "o", true, false, some Phase.locate⟩] 0).1,
   ((C9_annotatePhases_frame [⟨1, "r", "c", "o", true, false, some Phase.locate⟩] 0).2.2
      ⟨1, "r", "c", "o", true, false, some Phase.locate⟩ rfl).2.1 Phase.locate rfl⟩

/-- Claim C10: with `total ≥ 1`, from the idle state
(`currentIndex = -1`) both `step()` and `stepBack()` transition to
`paused` with `currentIndex = 0`. -/
theorem C10_step_from_idle (total : Nat) (s : Ctrl) (h : 1 ≤ total)
    (hs : s.state = PState.idle) (hi : s.currentIndex = -1) :
    (step total s).state = PState.paused ∧ (step total s).currentIndex = 0 ∧
    (stepBack s).state = PState.paused ∧ (stepBack s).currentIndex = 0 := by
  obtain ⟨st, ci, sp, t⟩ := s
  simp only [step, stepBack, effect, scheduleNext, clearTimer]
  split_ifs <;> simp_all

/-- Claim C10, witness: `step` and `stepBack` from the initial state with
three iterations. -/
theorem C10_step_from_idle_witness :
    (step 3 ⟨PState.idle, -1, 1, 0⟩).state = PState.paused ∧
    (step 3 ⟨PState.idle, -1, 1, 0⟩).currentIndex = 0 ∧
    (stepBack ⟨PState.idle, -1, 1, 0⟩).state = PState.paused ∧
    (stepBack ⟨PState.idle, -1, 1, 0⟩).currentIndex = 0 :=
  C10_step_from_idle 3 ⟨PState.idle, -1, 1, 0⟩ (by decide) rfl rfl
